import Mathlib

/-!
Verification of the signalk-windy-observations plugin (src/index.js) against
its natural-language specification.

The embedding models the pure algorithmic core of the plugin:
station-directory decoding (retrieveObservations, lines 179-185), the tile
computation deg2num (lines 156-165), the unit converters (lines 73-87), the
exclusion filter in retrieveStationData (lines 89-95), the position check in
checkAndPublishObservations (lines 62-71), and the start/stop timer handling
(lines 32-49).  JavaScript numbers are modelled as exact rationals (and exact
reals where the code applies transcendental functions); the only non-finite
JavaScript values that the modelled code can produce are the result of
division by zero in the decode loop, captured by the JSNum type.
-/

namespace Windy

/-- A JavaScript number as it can appear as the decode-loop bound
(`stations.length / data.items` in the source): a finite value, one of the
two infinities, or NaN.  Division of finite values is exact here; the decode
loop bound only needs the sign/zero case split of IEEE division. -/
inductive JSNum where
  | fin : ℚ → JSNum
  | posInf : JSNum
  | negInf : JSNum
  | nan : JSNum
deriving DecidableEq

/-- JavaScript division `a / b` for finite operands: `x / 0` is `Infinity`
(sign of `x`) for nonzero `x` and `NaN` for `0 / 0`; otherwise exact. -/
def jsDiv (a b : ℚ) : JSNum :=
  if b = 0 then
    (if a = 0 then JSNum.nan else if 0 < a then JSNum.posInf else JSNum.negInf)
  else JSNum.fin (a / b)

/-- `Number.isFinite`: true exactly on finite values. -/
def JSNum.isFinite : JSNum → Bool
  | JSNum.fin _ => true
  | _ => false

/-- The loop guard `i < stationCount` of the source, where `i` is the
natural-number loop counter and the bound is a JSNum: every comparison with
NaN is false, and `i < Infinity` is always true. -/
def jsLtNat (i : ℕ) : JSNum → Bool
  | JSNum.fin q => decide ((i : ℚ) < q)
  | JSNum.posInf => true
  | JSNum.negInf => false
  | JSNum.nan => false

/-- JavaScript array read `data[k]`: `none` models `undefined` for an
out-of-bounds index. -/
def jsIndex (data : List String) (k : ℕ) : Option String := data[k]?

/-- The decode loop of retrieveObservations (source lines 182-185):
`for (let i = 0; i < stationCount; i++) { let station = stations[i*7]; ... }`.
The stride is the literal `7` exactly as in the source (line 183), not the
provider-supplied width.  `fuel` bounds the number of steps we run; a `none`
result means the loop did not complete within `fuel` iterations. -/
def decodeLoopAux (data : List String) (c : JSNum) : ℕ → ℕ → Option (List (Option String))
  | 0, i => if jsLtNat i c then none else some []
  | fuel + 1, i =>
    if jsLtNat i c then
      (decodeLoopAux data c fuel (i + 1)).map (fun rest => jsIndex data (i * 7) :: rest)
    else some []

/-- The station-identifier extraction of retrieveObservations (source lines
180-185): the loop bound is `stations.length / data.items` computed with
JavaScript division, and each iteration reads `stations[i*7]`. -/
def retrieveObservationsDecode (items : ℚ) (data : List String) (fuel : ℕ) :
    Option (List (Option String)) :=
  decodeLoopAux data (jsDiv (data.length : ℚ) items) fuel 0

/-- degreesToRadians (source lines 73-79): `null` maps to `null`, any other
value is multiplied by the literal 0.0174533. -/
def degreesToRadians : Option ℚ → Option ℚ
  | none => none
  | some v => some (v * 0.0174533)

/-- celsiusToKelvin (source lines 81-87): `null` maps to `null`, any other
value has 273.15 added. -/
def celsiusToKelvin : Option ℚ → Option ℚ
  | none => none
  | some v => some (v + 273.15)

/-- The station-detail URL built in retrieveStationData (source line 96). -/
def stationDetailUrl (station : String) : String :=
  "https://node.windy.com/pois/stations/" ++ station

/-- The exclusion check and request issue of retrieveStationData (source
lines 89-97): if the identifier is in the configured exclusion list
(JavaScript `Array.includes`, strict equality, hence case-sensitive), the
function returns before building the URL and no request is issued (`none`);
otherwise the request to the detail URL is issued (`some url`). -/
def retrieveStationData (excludedStations : List String) (station : String) :
    Option String :=
  if excludedStations.contains station then none
  else some (stationDetailUrl station)

/-- The fields of the HTTP response that the callback of retrieveStationData
inspects (source line 104). -/
structure StationResponse where
  error : Bool
  statusCode : ℕ

/-- The number of path/value records published for a station in one cycle:
zero when the station was excluded (no request made), otherwise the callback
publishes the 8 values (source lines 106-149) exactly when there was no
transport error and the status code is 200. -/
def stationPublishCount (excludedStations : List String) (station : String)
    (resp : StationResponse) : ℕ :=
  match retrieveStationData excludedStations station with
  | none => 0
  | some _ => if !resp.error && resp.statusCode == 200 then 8 else 0

/-- The two timers of plugin.start (source lines 39-45): the one-shot 5 s
warm-up timeout and the recurring 15 min interval. -/
structure SchedulerState where
  warmupScheduled : Bool
  intervalScheduled : Bool
deriving DecidableEq

/-- plugin.start (source lines 32-46) schedules both timers. -/
def pluginStart : SchedulerState := ⟨true, true⟩

/-- plugin.stop (source lines 48-49) has an empty body: it clears neither
timer and leaves the state unchanged. -/
def pluginStop (s : SchedulerState) : SchedulerState := s

/-- Number of pipeline cycles executed when the interval timer tick arrives:
one if the interval is still scheduled, zero otherwise. -/
def cyclesOnIntervalTick (s : SchedulerState) : ℕ :=
  if s.intervalScheduled then 1 else 0

/-- A position as delivered by the position provider. -/
structure Position where
  latitude : ℚ
  longitude : ℚ

/-- Outcome of one timer firing. -/
inductive CycleOutcome where
  | skipped
  | ran (lat lng : ℚ)
deriving DecidableEq

/-- checkAndPublishObservations (source lines 62-71): when
`app.getSelfPath` yields no position the function logs and returns
(`skipped`, no tile computation, no fetch, no publish, no error raised);
otherwise it calls `retrieveObservations(lat, lng)` with the latitude and
longitude of the position (`ran lat lng`). -/
def checkAndPublishObservations (pos : Option Position) : CycleOutcome :=
  match pos with
  | none => CycleOutcome.skipped
  | some p => CycleOutcome.ran p.latitude p.longitude

/-- JavaScript `parseInt` applied to a finite number (source lines 159-160):
the number is rendered in decimal and the digits before the decimal point are
parsed, which truncates toward zero: floor for nonnegative arguments, ceiling
for negative ones. -/
noncomputable def jsParseIntOfNum (x : ℝ) : ℤ :=
  if 0 ≤ x then ⌊x⌋ else ⌈x⌉

/-- deg2num (source lines 156-165), with JavaScript float arithmetic modelled
by exact reals: `lat_rad = lat_deg * pi / 180`, `n = 2 ^ zoom`,
`xtile = parseInt((lon_deg + 180) / 360 * n)`,
`ytile = parseInt((1 - asinh(tan(lat_rad)) / pi) / 2 * n)`. -/
noncomputable def deg2num (lat_deg lon_deg : ℝ) (zoom : ℕ) : ℤ × ℤ :=
  let lat_rad := lat_deg * (Real.pi / 180)
  let n : ℝ := 2 ^ zoom
  let xtile := jsParseIntOfNum ((lon_deg + 180) / 360 * n)
  let ytile := jsParseIntOfNum ((1 - Real.arsinh (Real.tan lat_rad) / Real.pi) / 2 * n)
  (xtile, ytile)

end Windy

namespace Windy

/-- C3: the spec says stop halts both timers and zero cycles run once
stopped; in the source plugin.stop has an empty body, so after start-then-stop
both timers remain scheduled and an arriving interval tick still executes a
pipeline cycle. -/
theorem stop_leaves_timers_running :
    pluginStop pluginStart = (⟨true, true⟩ : SchedulerState) ∧
    cyclesOnIntervalTick (pluginStop pluginStart) = 1 := ⟨rfl, rfl⟩

/-- C4: degreesToRadians and celsiusToKelvin map a null (absent) input to
null, never a number, and map every non-null input to the converted
number. -/
theorem converters_preserve_null (v : ℚ) :
    degreesToRadians none = none ∧ celsiusToKelvin none = none ∧
    degreesToRadians (some v) = some (v * 0.0174533) ∧
    celsiusToKelvin (some v) = some (v + 273.15) :=
  ⟨rfl, rfl, rfl, rfl⟩

/-- C8: at a timer firing with no position available the cycle is skipped
(no tile computation, fetch or publish and no error); with a position
available, retrieveObservations runs with that latitude and longitude. -/
theorem no_position_skips_cycle (pos : Option Position) :
    (pos = none → checkAndPublishObservations pos = CycleOutcome.skipped) ∧
    (∀ p, pos = some p →
      checkAndPublishObservations pos = CycleOutcome.ran p.latitude p.longitude) := by
  constructor
  · rintro rfl; rfl
  · rintro p rfl; rfl

/-- Witness for C8 at concrete inputs: the absent position and the position
(47, -122). -/
theorem no_position_skips_cycle_witness :
    checkAndPublishObservations none = CycleOutcome.skipped ∧
    checkAndPublishObservations (some ⟨47, -122⟩) = CycleOutcome.ran 47 (-122) :=
  ⟨(no_position_skips_cycle none).1 rfl,
   (no_position_skips_cycle (some ⟨47, -122⟩)).2 ⟨47, -122⟩ rfl⟩

/-- C5: a station identifier in the exclusion list (exact, case-sensitive
string match) is never fetched and publishes zero records; any other
identifier has its detail request issued. -/
theorem excluded_station_not_fetched (excludedStations : List String)
    (station : String) (resp : StationResponse) :
    (station ∈ excludedStations →
      retrieveStationData excludedStations station = none ∧
      stationPublishCount excludedStations station resp = 0) ∧
    (station ∉ excludedStations →
      retrieveStationData excludedStations station = some (stationDetailUrl station)) := by
  constructor
  · intro h
    refine ⟨?_, ?_⟩
    · simp [retrieveStationData, h]
    · simp [stationPublishCount, retrieveStationData, h]
  · intro h
    simp [retrieveStationData, h]

/-- C6: deg2num is deterministic, and at latitude 0, longitude 0, zoom 8 it
returns the slippy-map reference tile (128, 128). -/
theorem deg2num_deterministic_and_reference :
    (∀ lat lon : ℝ, ∀ zoom : ℕ, deg2num lat lon zoom = deg2num lat lon zoom) ∧
    deg2num 0 0 8 = (128, 128) := by
  refine ⟨fun _ _ _ => rfl, ?_⟩
  unfold deg2num jsParseIntOfNum
  norm_num [Real.arsinh_zero]

/-- C2: the spec requires a true floor for the tile coordinates; the source
uses parseInt, which truncates toward zero.  At longitude -200 and zoom 8 the
intermediate x value is -128/9, so the code yields -14 while the floor is
-15. -/
theorem deg2num_truncates_toward_zero :
    (deg2num 0 (-200) 8).1 = -14 ∧ ⌊(((-200 : ℝ) + 180) / 360 * 2 ^ 8)⌋ = -15 := by
  constructor
  · show jsParseIntOfNum (((-200 : ℝ) + 180) / 360 * 2 ^ 8) = -14
    unfold jsParseIntOfNum
    rw [if_neg (by norm_num)]
    norm_num [Int.ceil_eq_iff]
  · norm_num [Int.floor_eq_iff]

/-- C9: degreesToRadians maps 180 to a value within 1/100000 of pi, and
celsiusToKelvin maps 0 exactly to 273.15. -/
theorem reference_conversion_values :
    (∃ q : ℚ, degreesToRadians (some 180) = some q ∧ |(q : ℝ) - Real.pi| < 1 / 100000) ∧
    celsiusToKelvin (some 0) = some 273.15 := by
  refine ⟨⟨180 * 0.0174533, rfl, ?_⟩, by norm_num [celsiusToKelvin]⟩
  have h1 := Real.pi_gt_d6
  have h2 := Real.pi_lt_d6
  rw [abs_sub_lt_iff]
  push_cast
  norm_num at h1 h2 ⊢
  constructor <;> linarith

/-- C1: the decoder computes the station count from the provider-supplied
width but indexes with the hard-coded stride 7.  With items = 2 and the
four-element listing [a, b, c, d] the code reads indices 0 and 7 (the latter
undefined), while indexing by the provider width would read index 1 * 2,
which holds c. -/
theorem decode_uses_hardcoded_stride :
    retrieveObservationsDecode 2 ["a", "b", "c", "d"] 3 = some [some "a", none] ∧
    jsIndex ["a", "b", "c", "d"] (1 * 2) = some "c" :=
  ⟨by norm_num [retrieveObservationsDecode, decodeLoopAux, jsDiv, jsLtNat, jsIndex],
   by decide⟩

/-- Witness for C5: ABC is excluded by the list [KSEA, ABC] (no request and
zero records) while the lower-case variant abc does not match and is
fetched. -/
theorem excluded_station_not_fetched_witness :
    (retrieveStationData ["KSEA", "ABC"] "ABC" = none ∧
      stationPublishCount ["KSEA", "ABC"] "ABC" ⟨false, 200⟩ = 0) ∧
    retrieveStationData ["KSEA", "ABC"] "abc" = some (stationDetailUrl "abc") :=
  ⟨(excluded_station_not_fetched ["KSEA", "ABC"] "ABC" ⟨false, 200⟩).1 (by decide),
   (excluded_station_not_fetched ["KSEA", "ABC"] "abc" ⟨false, 200⟩).2 (by decide)⟩

lemma decodeLoopAux_of_guard_false (data : List String) (c : JSNum) (fuel i : ℕ)
    (h : jsLtNat i c = false) : decodeLoopAux data c fuel i = some [] := by
  cases fuel <;> simp [decodeLoopAux, h]

/-- C7: with items = 7 and a listing of length 14 the decoder extracts
exactly two station identifiers, read at offsets 0 and 7 of the listing. -/
theorem decode_items7_len14 (data : List String) (h : data.length = 14)
    (fuel : ℕ) (hf : 2 ≤ fuel) :
    retrieveObservationsDecode 7 data fuel = some [jsIndex data 0, jsIndex data 7] := by
  obtain ⟨k, rfl⟩ : ∃ k, fuel = k + 2 := ⟨fuel - 2, by omega⟩
  have hc : jsDiv (data.length : ℚ) 7 = JSNum.fin 2 := by
    rw [h]; norm_num [jsDiv]
  have h0 : jsLtNat 0 (JSNum.fin 2) = true := by norm_num [jsLtNat]
  have h1 : jsLtNat 1 (JSNum.fin 2) = true := by norm_num [jsLtNat]
  have h2 : jsLtNat 2 (JSNum.fin 2) = false := by norm_num [jsLtNat]
  unfold retrieveObservationsDecode
  rw [hc]
  simp [decodeLoopAux, h0, h1, decodeLoopAux_of_guard_false data (JSNum.fin 2) k 2 h2]

/-- Witness for C7 at a concrete 14-element listing. -/
theorem decode_items7_len14_witness :
    retrieveObservationsDecode 7
      ["s0", "a1", "a2", "a3", "a4", "a5", "a6", "s1", "b1", "b2", "b3", "b4", "b5", "b6"] 2
      = some [some "s0", some "s1"] := by
  rw [decode_items7_len14
      ["s0", "a1", "a2", "a3", "a4", "a5", "a6", "s1", "b1", "b2", "b3", "b4", "b5", "b6"]
      (by decide) 2 (by decide)]
  decide

lemma jsLtNat_false_mono {c : JSNum} {m n : ℕ} (h : jsLtNat m c = false) (hmn : m ≤ n) :
    jsLtNat n c = false := by
  cases c with
  | fin q =>
    simp only [jsLtNat, decide_eq_false_iff_not, not_lt] at h ⊢
    exact h.trans (by exact_mod_cast Nat.cast_le.mpr hmn)
  | posInf => simp [jsLtNat] at h
  | negInf => rfl
  | nan => rfl

lemma decodeLoopAux_isSome_of_bound (data : List String) {c : JSNum} {m : ℕ}
    (hm : jsLtNat m c = false) :
    ∀ fuel i, m ≤ i + fuel → ∃ l, decodeLoopAux data c fuel i = some l := by
  intro fuel
  induction fuel with
  | zero =>
    intro i hi
    have hg : jsLtNat i c = false := jsLtNat_false_mono hm (by omega)
    exact ⟨[], by simp [decodeLoopAux, hg]⟩
  | succ f ih =>
    intro i hi
    rcases Bool.eq_false_or_eq_true (jsLtNat i c) with hg | hg
    · obtain ⟨l, hl⟩ := ih (i + 1) (by omega)
      exact ⟨jsIndex data (i * 7) :: l, by simp [decodeLoopAux, hg, hl]⟩
    · exact ⟨[], by simp [decodeLoopAux, hg]⟩

lemma decodeLoopAux_posInf (data : List String) :
    ∀ fuel i, decodeLoopAux data JSNum.posInf fuel i = none := by
  intro fuel
  induction fuel with
  | zero => intro i; simp [decodeLoopAux, jsLtNat]
  | succ f ih => intro i; simp [decodeLoopAux, jsLtNat, ih]

lemma decodeLoopAux_length (data : List String) {q : ℚ} :
    ∀ fuel i l, decodeLoopAux data (JSNum.fin q) fuel i = some l →
      l.length = ⌈q⌉.toNat - i := by
  intro fuel
  induction fuel with
  | zero =>
    intro i l hl
    rcases Bool.eq_false_or_eq_true (jsLtNat i (JSNum.fin q)) with hg | hg
    · simp [decodeLoopAux, hg] at hl
    · simp only [decodeLoopAux, hg, Bool.false_eq_true, if_false, Option.some.injEq] at hl
      have hqi : q ≤ (i : ℚ) := by
        simpa [jsLtNat, not_lt] using hg
      have hceil : ⌈q⌉ ≤ (i : ℤ) := Int.ceil_le.mpr (by exact_mod_cast hqi)
      subst hl
      simp only [List.length_nil]
      omega
  | succ f ih =>
    intro i l hl
    rcases Bool.eq_false_or_eq_true (jsLtNat i (JSNum.fin q)) with hg | hg
    · simp only [decodeLoopAux, hg, if_true, Option.map_eq_some'] at hl
      obtain ⟨rest, hrest, hcons⟩ := hl
      have hlen := ih (i + 1) rest hrest
      have hilt : (i : ℤ) < ⌈q⌉ := by
        rw [Int.lt_ceil]
        have hiq : ((i : ℚ) < q) := by simpa [jsLtNat] using hg
        exact_mod_cast hiq
      subst hcons
      simp only [List.length_cons, hlen]
      omega
    · simp only [decodeLoopAux, hg, Bool.false_eq_true, if_false, Option.some.injEq] at hl
      have hqi : q ≤ (i : ℚ) := by
        simpa [jsLtNat, not_lt] using hg
      have hceil : ⌈q⌉ ≤ (i : ℤ) := Int.ceil_le.mpr (by exact_mod_cast hqi)
      subst hl
      simp only [List.length_nil]
      omega

/-- C10 (amended): the decode loop terminates if and only if the computed
station count is not positive infinity (finite or NaN; the NaN case arises
exactly for an empty listing with items = 0 and runs zero iterations), and
for items > 0 the loop performs exactly ceil(length(data) / items)
iterations. -/
theorem decode_loop_termination (items : ℚ) (data : List String) :
    ((∃ fuel, (retrieveObservationsDecode items data fuel).isSome = true) ↔
      jsDiv (data.length : ℚ) items ≠ JSNum.posInf) ∧
    (0 < items → ∀ fuel l, retrieveObservationsDecode items data fuel = some l →
      l.length = (⌈(data.length : ℚ) / items⌉).toNat) := by
  constructor
  · constructor
    · rintro ⟨fuel, hf⟩ hEq
      rw [retrieveObservationsDecode, hEq, decodeLoopAux_posInf] at hf
      simp at hf
    · intro hne
      cases hc : jsDiv (data.length : ℚ) items with
      | fin q =>
        have hm : jsLtNat (⌈q⌉.toNat) (JSNum.fin q) = false := by
          simp only [jsLtNat, decide_eq_false_iff_not, not_lt]
          calc q ≤ (⌈q⌉ : ℚ) := Int.le_ceil q
            _ ≤ ((⌈q⌉.toNat : ℤ) : ℚ) := by exact_mod_cast Int.self_le_toNat _
            _ = (⌈q⌉.toNat : ℚ) := by push_cast; ring
        obtain ⟨l, hl⟩ := decodeLoopAux_isSome_of_bound data hm (⌈q⌉.toNat) 0 (by omega)
        refine ⟨⌈q⌉.toNat, ?_⟩
        rw [retrieveObservationsDecode, hc, hl]
        rfl
      | posInf => exact absurd hc hne
      | negInf =>
        have hm : jsLtNat 0 JSNum.negInf = false := rfl
        obtain ⟨l, hl⟩ := decodeLoopAux_isSome_of_bound data hm 0 0 (by omega)
        refine ⟨0, ?_⟩
        rw [retrieveObservationsDecode, hc, hl]
        rfl
      | nan =>
        have hm : jsLtNat 0 JSNum.nan = false := rfl
        obtain ⟨l, hl⟩ := decodeLoopAux_isSome_of_bound data hm 0 0 (by omega)
        refine ⟨0, ?_⟩
        rw [retrieveObservationsDecode, hc, hl]
        rfl
  · intro hpos fuel l hl
    have hne : items ≠ 0 := ne_of_gt hpos
    have hc : jsDiv (data.length : ℚ) items = JSNum.fin ((data.length : ℚ) / items) := by
      simp [jsDiv, hne]
    rw [retrieveObservationsDecode, hc] at hl
    have := decodeLoopAux_length data fuel 0 l hl
    simpa using this

/-- Witness for C10 at items = 2 and a 3-element listing: the loop
terminates and performs ceil(3/2) = 2 iterations. -/
theorem decode_loop_termination_witness :
    retrieveObservationsDecode 2 ["x", "y", "z"] 2 = some [some "x", none] ∧
    [some "x", (none : Option String)].length
      = (⌈((["x", "y", "z"] : List String).length : ℚ) / 2⌉).toNat := by
  have heval : retrieveObservationsDecode 2 ["x", "y", "z"] 2 = some [some "x", none] := by
    norm_num [retrieveObservationsDecode, decodeLoopAux, jsDiv, jsLtNat, jsIndex]
  exact ⟨heval,
    (decode_loop_termination 2 ["x", "y", "z"]).2 (by norm_num) 2 [some "x", none] heval⟩

/-- Counterexample to C10 as stated: with items = 0 and an empty listing
the computed count is NaN, which is not finite, yet the loop terminates
immediately (zero iterations), so termination is not equivalent to the count
being finite. -/
theorem decode_loop_nan_terminates :
    (retrieveObservationsDecode 0 [] 1).isSome = true ∧
    (jsDiv (([] : List String).length : ℚ) 0).isFinite = false := by
  constructor
  · norm_num [retrieveObservationsDecode, decodeLoopAux, jsDiv, jsLtNat]
  · norm_num [jsDiv, JSNum.isFinite]

end Windy
